import Mathlib

/-!
Verification development for `dnim-cwgangp.py`: a conditional WGAN-GP
(day/night image translation on the DNIM dataset).  The Python source is
shallowly embedded below: the callback counters and the inferno training
loop become explicit state transitions, the `_state_hooks` cache of
`CGANModel` becomes a record threaded through the model operations, the
network architectures are embedded both as a shape calculus (mirroring the
PyTorch layer-by-layer shape/runtime-check semantics) and, for the
generator, as a value-level model over real tensors.
-/

/-! ## Layer shape calculus

Each `nn` module is modelled as a function from an input shape
(`List ℕ`, one entry per tensor dimension, batch first) to either the
output shape or a runtime error, following PyTorch's documented shape
rules and input-dimension checks. -/

/-- Shape rule of `nn.Conv2d(cin, cout, kernel_size=k, stride=s, padding=p)`:
4-D input `[n, cin, h, w]`, output spatial size `(h + 2p - k)/s + 1`. -/
def conv2dShape (cin cout k s p : ℕ) : List ℕ → Except String (List ℕ)
  | [n, c, h, w] =>
    if c = cin ∧ 0 < s ∧ k ≤ h + 2 * p ∧ k ≤ w + 2 * p then
      Except.ok [n, cout, (h + 2 * p - k) / s + 1, (w + 2 * p - k) / s + 1]
    else Except.error "Conv2d: invalid input"
  | _ => Except.error "Conv2d: expected 4D input"

/-- Shape rule of `nn.ConvTranspose2d(cin, cout, kernel_size=k, stride=s, padding=p)`:
4-D input, output spatial size `(h - 1)*s + k - 2p`. -/
def convTranspose2dShape (cin cout k s p : ℕ) : List ℕ → Except String (List ℕ)
  | [n, c, h, w] =>
    if c = cin ∧ 0 < s ∧ 0 < h ∧ 0 < w ∧ 2 * p < (h - 1) * s + k ∧ 2 * p < (w - 1) * s + k then
      Except.ok [n, cout, (h - 1) * s + k - 2 * p, (w - 1) * s + k - 2 * p]
    else Except.error "ConvTranspose2d: invalid input"
  | _ => Except.error "ConvTranspose2d: expected 4D input"

/-- `nn.InstanceNorm2d(numFeatures)` (affine=False): accepts a 4-D input and
preserves its shape; any other rank is rejected by `_check_input_dim`. -/
def instanceNorm2dShape (_numFeatures : ℕ) : List ℕ → Except String (List ℕ)
  | [n, c, h, w] => Except.ok [n, c, h, w]
  | _ => Except.error "InstanceNorm2d: expected 4D input"

/-- `nn.InstanceNorm1d(numFeatures)` (affine=False): accepts a 3-D input
`[n, c, l]` and preserves its shape; `_check_input_dim` rejects any other
rank, in particular the 2-D output of a `Linear` layer. -/
def instanceNorm1dShape (_numFeatures : ℕ) : List ℕ → Except String (List ℕ)
  | [n, c, l] => Except.ok [n, c, l]
  | _ => Except.error "InstanceNorm1d: expected 3D input"

/-- `nn.LeakyReLU()`: elementwise, shape preserved. -/
def leakyReLUShape (s : List ℕ) : Except String (List ℕ) := Except.ok s

/-- `nn.Dropout(p)`: elementwise, shape preserved. -/
def dropoutShape (s : List ℕ) : Except String (List ℕ) := Except.ok s

/-- `nn.Sigmoid()`: elementwise, shape preserved. -/
def sigmoidShape (s : List ℕ) : Except String (List ℕ) := Except.ok s

/-- Total number of elements of a shape. -/
def listProd (s : List ℕ) : ℕ := s.foldr (fun a b => a * b) 1

/-- `nn.Linear(inF, outF)`: the last dimension must equal `inF` and is
replaced by `outF`. -/
def linearShape (inF outF : ℕ) (s : List ℕ) : Except String (List ℕ) :=
  match s.getLast? with
  | some d => if d = inF then Except.ok (s.dropLast ++ [outF]) else Except.error "Linear: size mismatch"
  | none => Except.error "Linear: expected nonempty shape"

/-- Modelled from the spec: `gan_utils.Reshape` is imported by the source but
`gan_utils.py` is not under `src/`; per the spec (section 4.2, "flatten") and
the source comments, `Reshape(-1, d)` views the input as `[total / d, d]`
(every use in the source has `d` dividing the element count, so the model
omits torch's divisibility check). -/
def reshapeTo2dShape (d : ℕ) (s : List ℕ) : Except String (List ℕ) :=
  Except.ok [listProd s / d, d]

/-- Modelled from the spec: `gan_utils.Reshape(-1)` flattens the input to a
1-D tensor of all elements. -/
def reshapeTo1dShape (s : List ℕ) : Except String (List ℕ) := Except.ok [listProd s]

/-- `torch.cat((x, y), dim=1)`: channel concatenation of two 4-D tensors. -/
def catDim1Shape : List ℕ → List ℕ → Except String (List ℕ)
  | [n1, c1, h1, w1], [n2, c2, h2, w2] =>
    if n1 = n2 ∧ h1 = h2 ∧ w1 = w2 then Except.ok [n1, c1 + c2, h1, w1]
    else Except.error "cat: size mismatch"
  | _, _ => Except.error "cat: expected 4D inputs"

/-- Sequential application of a layer list, stopping at the first error
(`nn.Sequential` semantics). -/
def seqShape (layers : List (List ℕ → Except String (List ℕ))) (s : List ℕ) :
    Except String (List ℕ) :=
  layers.foldl (fun acc f => acc.bind f) (Except.ok s)

/-- The generator's module list (src lines 58-87).  Mirrors the Python
list comprehension `[m for m in [...] if m is not None]`: each optional
`InstanceNorm2d` is present exactly when `args.generator_instancenorm`. -/
def CGeneratorNetwork_modules (inorm : Bool) :
    List (Option (List ℕ → Except String (List ℕ))) :=
  [some (conv2dShape 3 32 3 1 3),
   if inorm then some (instanceNorm2dShape 32) else none,
   some leakyReLUShape,
   some dropoutShape,
   some (conv2dShape 32 64 4 2 1),
   if inorm then some (instanceNorm2dShape 64) else none,
   some leakyReLUShape,
   some dropoutShape,
   some (conv2dShape 64 128 4 2 1),
   if inorm then some (instanceNorm2dShape 128) else none,
   some leakyReLUShape,
   some dropoutShape,
   some (conv2dShape 128 256 4 2 1),
   if inorm then some (instanceNorm2dShape 256) else none,
   some leakyReLUShape,
   some dropoutShape,
   some (convTranspose2dShape 256 128 4 2 1),
   if inorm then some (instanceNorm2dShape 128) else none,
   some leakyReLUShape,
   some dropoutShape,
   some (convTranspose2dShape 128 64 4 2 1),
   if inorm then some (instanceNorm2dShape 64) else none,
   some leakyReLUShape,
   some dropoutShape,
   some (convTranspose2dShape 64 32 4 2 0),
   if inorm then some (instanceNorm2dShape 32) else none,
   some leakyReLUShape,
   some (conv2dShape 32 3 3 1 0),
   some sigmoidShape]

/-- Shape semantics of `CGeneratorNetwork` (an `nn.Sequential`). -/
def CGeneratorNetwork_shape (inorm : Bool) (s : List ℕ) : Except String (List ℕ) :=
  seqShape ((CGeneratorNetwork_modules inorm).filterMap id) s

/-- The discriminator trunk's module list (src lines 95-107), with the
optional `InstanceNorm`s present exactly when `args.discriminator_instancenorm`. -/
def CDiscriminatorNetwork_modules (inorm : Bool) :
    List (Option (List ℕ → Except String (List ℕ))) :=
  [some (conv2dShape 6 64 4 2 1),
   if inorm then some (instanceNorm2dShape 64) else none,
   some leakyReLUShape,
   some (conv2dShape 64 128 4 2 1),
   if inorm then some (instanceNorm2dShape 128) else none,
   some leakyReLUShape,
   some (reshapeTo2dShape (128 * 8 * 8)),
   some (linearShape (128 * 8 * 8) 1024),
   if inorm then some (instanceNorm1dShape 1024) else none,
   some leakyReLUShape,
   some (linearShape 1024 1),
   some reshapeTo1dShape]

/-- Shape semantics of `CDiscriminatorNetwork.trunk`. -/
def CDiscriminatorNetwork_trunkShape (inorm : Bool) (s : List ℕ) : Except String (List ℕ) :=
  seqShape ((CDiscriminatorNetwork_modules inorm).filterMap id) s

/-- Shape semantics of `CDiscriminatorNetwork.forward(x, y)`:
`h = torch.cat((x, y), dim=1); h = self.trunk(h)` (src lines 109-112). -/
def CDiscriminatorNetwork_forwardShape (inorm : Bool) (sx sy : List ℕ) :
    Except String (List ℕ) :=
  (catDim1Shape sx sy).bind (CDiscriminatorNetwork_trunkShape inorm)

/-! ## Value-level model of the generator

Real-valued tensors indexed by `Fin`, with `Conv2d`, `ConvTranspose2d`,
`InstanceNorm2d`, `LeakyReLU`, `Dropout` and `Sigmoid` given their PyTorch
semantics.  Dropout masks (train mode) are explicit parameters, as is the
instance-norm toggle. -/

/-- A `c × h × w` real tensor (one batch element). -/
def Tensor3 (c h w : ℕ) : Type := Fin c → Fin h → Fin w → ℝ

/-- Read a zero-padded tensor at (possibly out-of-range) offset coordinates:
`r` and `t` are coordinates into the input padded by `p` on each side. -/
noncomputable def padGet {c h w : ℕ} (p : ℕ) (x : Tensor3 c h w) (ci : Fin c)
    (r t : ℕ) : ℝ :=
  if hr : p ≤ r ∧ r - p < h ∧ p ≤ t ∧ t - p < w then
    x ci ⟨r - p, hr.2.1⟩ ⟨t - p, hr.2.2.2⟩
  else 0

/-- `nn.Conv2d` value semantics: cross-correlation with zero padding `p`,
stride `s`, square kernel `k`, plus bias. -/
noncomputable def conv2d {cin h w : ℕ} (cout k s p : ℕ)
    (weight : Fin cout → Fin cin → Fin k → Fin k → ℝ) (bias : Fin cout → ℝ)
    (x : Tensor3 cin h w) :
    Tensor3 cout ((h + 2 * p - k) / s + 1) ((w + 2 * p - k) / s + 1) :=
  fun co i j =>
    bias co + ∑ ci : Fin cin, ∑ a : Fin k, ∑ b : Fin k,
      weight co ci a b * padGet p x ci (i.val * s + a.val) (j.val * s + b.val)

/-- `nn.ConvTranspose2d` value semantics: each input position `(n, m)`
contributes `weight[ci][co][a][b] * x[ci][n][m]` to output position
`(n*s + a - p, m*s + b - p)`. -/
noncomputable def convTranspose2d {cin h w : ℕ} (cout k s p : ℕ)
    (weight : Fin cin → Fin cout → Fin k → Fin k → ℝ) (bias : Fin cout → ℝ)
    (x : Tensor3 cin h w) :
    Tensor3 cout ((h - 1) * s + k - 2 * p) ((w - 1) * s + k - 2 * p) :=
  fun co i j =>
    bias co + ∑ ci : Fin cin, ∑ n : Fin h, ∑ m : Fin w, ∑ a : Fin k, ∑ b : Fin k,
      if n.val * s + a.val = i.val + p ∧ m.val * s + b.val = j.val + p then
        weight ci co a b * x ci n m
      else 0

/-- PyTorch's default instance/batch-norm epsilon, 1e-5. -/
noncomputable def instanceNormEps : ℝ := 1 / 100000

/-- `nn.InstanceNorm2d` (affine=False) value semantics: per-channel
normalization over the spatial dimensions with biased variance. -/
noncomputable def instanceNorm2d {c h w : ℕ} (x : Tensor3 c h w) : Tensor3 c h w :=
  fun ci i j =>
    let μ := (∑ a : Fin h, ∑ b : Fin w, x ci a b) / (h * w : ℝ)
    let v := (∑ a : Fin h, ∑ b : Fin w, (x ci a b - μ) ^ 2) / (h * w : ℝ)
    (x ci i j - μ) / Real.sqrt (v + instanceNormEps)

/-- Elementwise map over a tensor. -/
noncomputable def tmap {c h w : ℕ} (f : ℝ → ℝ) (x : Tensor3 c h w) : Tensor3 c h w :=
  fun ci i j => f (x ci i j)

/-- `nn.LeakyReLU()` with the default negative slope 0.01. -/
noncomputable def leakyReLU (v : ℝ) : ℝ := if 0 ≤ v then v else (1 / 100) * v

/-- `nn.Dropout(p)` in training mode: multiply by a 0/1 mask and rescale by
`1/(1-p)`. -/
noncomputable def dropoutT {c h w : ℕ} (p : ℝ) (mask : Tensor3 c h w)
    (x : Tensor3 c h w) : Tensor3 c h w :=
  fun ci i j => x ci i j * mask ci i j / (1 - p)

/-- `nn.Sigmoid()` value semantics. -/
noncomputable def sigmoid (v : ℝ) : ℝ := 1 / (1 + Real.exp (-v))

/-- The learnable weights of `CGeneratorNetwork`: one weight/bias pair per
(transposed) convolution, in source order (src lines 59, 63, 67, 71, 75,
79, 83, 86). -/
structure CGeneratorParams where
  w1 : Fin 32 → Fin 3 → Fin 3 → Fin 3 → ℝ
  b1 : Fin 32 → ℝ
  w2 : Fin 64 → Fin 32 → Fin 4 → Fin 4 → ℝ
  b2 : Fin 64 → ℝ
  w3 : Fin 128 → Fin 64 → Fin 4 → Fin 4 → ℝ
  b3 : Fin 128 → ℝ
  w4 : Fin 256 → Fin 128 → Fin 4 → Fin 4 → ℝ
  b4 : Fin 256 → ℝ
  w5 : Fin 256 → Fin 128 → Fin 4 → Fin 4 → ℝ
  b5 : Fin 128 → ℝ
  w6 : Fin 128 → Fin 64 → Fin 4 → Fin 4 → ℝ
  b6 : Fin 64 → ℝ
  w7 : Fin 64 → Fin 32 → Fin 4 → Fin 4 → ℝ
  b7 : Fin 32 → ℝ
  w8 : Fin 3 → Fin 32 → Fin 3 → Fin 3 → ℝ
  b8 : Fin 3 → ℝ

/-- The dropout masks of one forward pass of `CGeneratorNetwork` (six
`nn.Dropout(0.5)` layers, src lines 62, 66, 70, 74, 78, 82). -/
structure CGeneratorMasks where
  m1 : Tensor3 32 36 36
  m2 : Tensor3 64 18 18
  m3 : Tensor3 128 9 9
  m4 : Tensor3 256 4 4
  m5 : Tensor3 128 8 8
  m6 : Tensor3 64 16 16

/-- Value semantics of `CGeneratorNetwork` on one 3 x 32 x 32 condition image
(src lines 54-87): encoder convolutions, decoder transposed convolutions,
optional instance norm, leaky rectification, dropout, and a final `Sigmoid`. -/
noncomputable def CGeneratorNetwork_forward (inorm : Bool) (P : CGeneratorParams)
    (M : CGeneratorMasks) (y : Tensor3 3 32 32) : Tensor3 3 32 32 :=
  let e1 : Tensor3 32 36 36 := conv2d 32 3 1 3 P.w1 P.b1 y
  let e1n : Tensor3 32 36 36 := if inorm then instanceNorm2d e1 else e1
  let e1d : Tensor3 32 36 36 := dropoutT (1 / 2) M.m1 (tmap leakyReLU e1n)
  let e2 : Tensor3 64 18 18 := conv2d 64 4 2 1 P.w2 P.b2 e1d
  let e2n : Tensor3 64 18 18 := if inorm then instanceNorm2d e2 else e2
  let e2d : Tensor3 64 18 18 := dropoutT (1 / 2) M.m2 (tmap leakyReLU e2n)
  let e3 : Tensor3 128 9 9 := conv2d 128 4 2 1 P.w3 P.b3 e2d
  let e3n : Tensor3 128 9 9 := if inorm then instanceNorm2d e3 else e3
  let e3d : Tensor3 128 9 9 := dropoutT (1 / 2) M.m3 (tmap leakyReLU e3n)
  let e4 : Tensor3 256 4 4 := conv2d 256 4 2 1 P.w4 P.b4 e3d
  let e4n : Tensor3 256 4 4 := if inorm then instanceNorm2d e4 else e4
  let e4d : Tensor3 256 4 4 := dropoutT (1 / 2) M.m4 (tmap leakyReLU e4n)
  let d1 : Tensor3 128 8 8 := convTranspose2d 128 4 2 1 P.w5 P.b5 e4d
  let d1n : Tensor3 128 8 8 := if inorm then instanceNorm2d d1 else d1
  let d1d : Tensor3 128 8 8 := dropoutT (1 / 2) M.m5 (tmap leakyReLU d1n)
  let d2 : Tensor3 64 16 16 := convTranspose2d 64 4 2 1 P.w6 P.b6 d1d
  let d2n : Tensor3 64 16 16 := if inorm then instanceNorm2d d2 else d2
  let d2d : Tensor3 64 16 16 := dropoutT (1 / 2) M.m6 (tmap leakyReLU d2n)
  let d3 : Tensor3 32 34 34 := convTranspose2d 32 4 2 0 P.w7 P.b7 d2d
  let d3n : Tensor3 32 34 34 := if inorm then instanceNorm2d d3 else d3
  let d3a : Tensor3 32 34 34 := tmap leakyReLU d3n
  let out : Tensor3 3 32 32 := conv2d 3 3 1 0 P.w8 P.b8 d3a
  tmap sigmoid out

/-! ## The adversarial model wrapper and its `_state_hooks` cache

`CGANModel` (src lines 115-155) composes an abstract generator and
discriminator and caches tensors in the mutable dict `_state_hooks`; the
dict becomes an explicit record and every method returns the updated
model. -/

/-- The `_state_hooks` dict of `CGANModel`: one optional slot per key the
source ever writes. -/
structure StateHooks (α : Type) where
  xfake : Option α
  y : Option α
  generated_images : Option α
  xreal : Option α
  real_images : Option α

/-- `CGANModel`: generator, discriminator, and the `_state_hooks` cache.
`format_images` is modelled from the spec: `gan_utils.format_images` is not
under `src/`; per the spec it produces a display-formatted copy of an image
batch for logging. -/
structure CGANModel (α β : Type) where
  generator : α → α
  discriminator : α → α → β
  format_images : α → α
  hooks : StateHooks α

/-- `CGANModel.generate` (src lines 125-133): run the generator, cache
`xfake`, `y` and `generated_images`, return the fake batch. -/
def CGANModel.generate {α β : Type} (m : CGANModel α β) (y : α) : α × CGANModel α β :=
  let xfake := m.generator y
  (xfake,
   { m with hooks := { m.hooks with
       xfake := some xfake
       y := some y
       generated_images := some (m.format_images xfake) } })

/-- `CGANModel.discriminate` (src lines 135-137): pure application of the
discriminator, no cache writes. -/
def CGANModel.discriminate {α β : Type} (m : CGANModel α β) (x y : α) : β :=
  m.discriminator x y

/-- `CGANModel.y_fake` (src lines 139-142): generate then discriminate. -/
def CGANModel.y_fake {α β : Type} (m : CGANModel α β) (y : α) : β × CGANModel α β :=
  let r := m.generate y
  (r.2.discriminate r.1 y, r.2)

/-- `CGANModel.y_real` (src lines 144-150): discriminate the real batch and
cache `xreal` and `real_images` — but not `y`. -/
def CGANModel.y_real {α β : Type} (m : CGANModel α β) (xreal y : α) : β × CGANModel α β :=
  (m.discriminate xreal y,
   { m with hooks := { m.hooks with
       xreal := some xreal
       real_images := some (m.format_images xreal) } })

/-- `CGANModel.forward` (src lines 152-155): evaluate `y_real` first and
`y_fake` second (Python tuple evaluation order), returning both scores. -/
def CGANModel.forward {α β : Type} (m : CGANModel α β) (xreal y : α) :
    (β × β) × CGANModel α β :=
  let r1 := m.y_real xreal y
  let r2 := r1.2.y_fake y
  ((r1.1, r2.1), r2.2)

/-- `CWGANDiscriminatorLoss.discriminate` (src lines 158-161): score an
interpolated image under the discriminator using the condition currently
cached in `_state_hooks['y']` (`none` models the `KeyError` when no
`generate` has run yet). -/
def CWGANDiscriminatorLoss_discriminate {α β : Type} (m : CGANModel α β) (xmix : α) :
    Option β :=
  m.hooks.y.map (fun y => m.discriminate xmix y)

/-- Modelled from the spec: `wgan_loss.WGANDiscriminatorLoss` is not under
`src/`; per spec section 4.4 its gradient-penalty computation draws a mixing
coefficient `eps` in `[0,1]`, forms the interpolated image
`xhat = eps * xreal + (1 - eps) * xfake`, and scores `xhat` through the
subclass `discriminate` hook.  Returns the interpolated image together with
the score call's result. -/
def gradientPenaltyScoreCall {β : Type} (m : CGANModel ℚ β) (eps xreal xfake : ℚ) :
    ℚ × Option β :=
  let xhat := eps * xreal + (1 - eps) * xfake
  (xhat, CWGANDiscriminatorLoss_discriminate m xhat)

/-! ## Dataset, random sampling, parameters, optimizers -/

/-- `DNIMWrapper` data (src lines 25-32): `dnim.npy` is an array of
(day image, night image) rows; `self.days` is column 0 and `self.nights`
column 1.  Images are abstracted to rationals. -/
structure DNIMData where
  pairs : List (ℚ × ℚ)

/-- `self.days = [torch.Tensor(x) for x in data[:, 0]]` (src line 30). -/
def DNIMWrapper_days (d : DNIMData) : List ℚ := d.pairs.map Prod.fst

/-- `self.nights = [torch.Tensor(y) for y in data[:, 1]]` (src line 31). -/
def DNIMWrapper_nights (d : DNIMData) : List ℚ := d.pairs.map Prod.snd

/-- `DNIMWrapper.__len__` (src lines 34-35): `len(self.days)`. -/
def DNIMWrapper_len (d : DNIMData) : ℕ := (DNIMWrapper_days d).length

/-- `DNIMWrapper.__getitem__` (src lines 37-42):
`x, y = self.days[item], self.nights[item]; return x, y, y`. -/
def DNIMWrapper_getitem (d : DNIMData) (i : ℕ) : Option (ℚ × ℚ × ℚ) :=
  match (DNIMWrapper_days d)[i]?, (DNIMWrapper_nights d)[i]? with
  | some x, some y => some (x, y, y)
  | _, _ => none

/-- inferno's `Trainer.bind_loader('train', loader, num_inputs=2)`
(src line 265) feeds the first two components of each dataset item to
`model.forward` as `(xreal, y)`. -/
def trainerForwardArgs (t : ℚ × ℚ × ℚ) : ℚ × ℚ := (t.1, t.2.1)

/-- The condition argument `y` that `CGANModel.forward` receives for sample
`i` of the training set. -/
def forwardConditionOfSample (d : DNIMData) (i : ℕ) : Option ℚ :=
  (DNIMWrapper_getitem d i).map (fun t => (trainerForwardArgs t).2)

/-- The fixed condition captured by `CGenerateDataCallback.__init__`
(src line 174): `self.y = self.dataset[0][1].unsqueeze(0)`. -/
def CGenerateDataCallback_y (d : DNIMData) : Option ℚ :=
  (DNIMWrapper_getitem d 0).map (fun t => t.2.1)

/-- `np.random.randint(lo, hi)`: a uniform draw from `[lo, hi)`, modelled as
the seed reduced modulo the range width (numpy documents the draw as
uniform; the seed `r` stands for the state of numpy's global generator). -/
def np_random_randint (r lo hi : ℕ) : ℕ := lo + r % (hi - lo)

/-- The index drawn by `CGeneratorTrainingCallback.train_generator`
(src line 233): `np.random.randint(0, self.len)`. -/
def train_generator_index (d : DNIMData) (r : ℕ) : ℕ :=
  np_random_randint r 0 (DNIMWrapper_len d)

/-- The single condition drawn by `train_generator` (src line 233):
`self.dataset[np.random.randint(0, self.len)][1]`. -/
def train_generator_condition (d : DNIMData) (r : ℕ) : Option ℚ :=
  (DNIMWrapper_getitem d (train_generator_index d r)).map (fun t => t.2.1)

/-- The model's learnable state: generator parameters and discriminator
parameters (`CGANModel` holds the two submodules, src lines 117-120). -/
structure CGANParamsQ where
  generator : List ℚ
  discriminator : List ℚ

/-- One first-order optimizer update on a registered parameter list:
each parameter moves against its gradient (torch `Adam.step`, abstracting
the moment bookkeeping into the gradient list). -/
def adamStep (lr : ℚ) (grads params : List ℚ) : List ℚ :=
  List.zipWith (fun w g => w - lr * g) params grads

/-- The discriminator training step run by the inferno trainer once per
batch: backpropagate the criterion and step the optimizer built over
`model.discriminator.parameters()` (src line 256). -/
def Trainer_discriminator_step (lr : ℚ) (grads : List ℚ) (p : CGANParamsQ) :
    CGANParamsQ :=
  { generator := p.generator, discriminator := adamStep lr grads p.discriminator }

/-- `CGeneratorTrainingCallback.train_generator` (src lines 229-242): draw
one random example, compute `y_fake` on its condition, backpropagate the
generator loss, and step the callback's own Adam, which was built over
`model.generator.parameters()` only (src lines 214, 263).  `grad` maps the
drawn condition and the current generator parameters to the loss gradient.
Returns `none` when the dataset is empty (numpy raises on an empty range). -/
def CGeneratorTrainingCallback_train_generator (d : DNIMData)
    (grad : ℚ → List ℚ → List ℚ) (lr : ℚ) (r : ℕ) (p : CGANParamsQ) :
    Option CGANParamsQ :=
  match DNIMWrapper_getitem d (train_generator_index d r) with
  | some t =>
      some { generator := adamStep lr (grad t.2.1 p.generator) p.generator
             discriminator := p.discriminator }
  | none => none

/-- The command-line options recognized by `main` (src lines 284-318). -/
def main_argument_names : List String :=
  ["--save-directory", "--batch-size", "--epochs", "--image-frequency",
   "--log-image-frequency", "--generator-frequency", "--discriminator-lr",
   "--generator-lr", "--penalty-weight", "--discriminator-instancenorm",
   "--generator-instancenorm", "--no-cuda", "--no-ffmpeg"]

/-! ## Callback counters and the training-loop scheduler -/

/-- Zero-padded 8-digit decimal, the Python format `'{:08d}'`. -/
def zeroPad8 (n : ℕ) : String :=
  let s := toString n
  String.mk (List.replicate (8 - s.length) '0') ++ s

/-- The image file name written by `CGenerateDataCallback.save_images`
(src line 197): `'{:08d}.png'.format(self.image_count)`. -/
def imageFileName (count : ℕ) : String := zeroPad8 count ++ ".png"

/-- Counter state of `CGenerateDataCallback` (src lines 167-174), plus the
list of image files it has written, in order. -/
structure CGenerateDataCallbackState where
  count : ℕ
  image_count : ℕ
  frequency : ℕ
  files : List String

/-- `CGenerateDataCallback.save_images` (src lines 193-207): writes one file
named after the current `image_count`, then increments it. -/
def CGenerateDataCallback_save_images (s : CGenerateDataCallbackState) :
    CGenerateDataCallbackState :=
  { s with files := s.files ++ [imageFileName s.image_count]
           image_count := s.image_count + 1 }

/-- `CGenerateDataCallback.end_of_training_iteration` (src lines 176-181):
increment the counter; when it exceeds (strictly) the frequency, save an
image and reset the counter. -/
def CGenerateDataCallback_end_of_training_iteration (s : CGenerateDataCallbackState) :
    CGenerateDataCallbackState :=
  let c := s.count + 1
  if c > s.frequency then { (CGenerateDataCallback_save_images s) with count := 0 }
  else { s with count := c }

/-- Counter state of `CGeneratorTrainingCallback` (src lines 212-219);
`updates` counts the `train_generator` invocations, i.e. the generator
optimizer steps. -/
structure CGeneratorTrainingCallbackState where
  count : ℕ
  frequency : ℕ
  updates : ℕ

/-- `CGeneratorTrainingCallback.end_of_training_iteration` (src lines
221-227): increment the counter; when it exceeds (strictly) the frequency,
train the generator and reset the counter. -/
def CGeneratorTrainingCallback_end_of_training_iteration
    (s : CGeneratorTrainingCallbackState) : CGeneratorTrainingCallbackState :=
  let c := s.count + 1
  if c > s.frequency then { s with count := 0, updates := s.updates + 1 }
  else { s with count := c }

/-- The observable state of one training run: discriminator optimizer steps
performed by the trainer, and the two callbacks' states. -/
structure TrainRunState where
  discUpdates : ℕ
  gen : CGeneratorTrainingCallbackState
  img : CGenerateDataCallbackState

/-- One inferno training iteration (`run`, src lines 245-279): the trainer
draws a batch, backpropagates the discriminator criterion and steps the
discriminator optimizer, then invokes `end_of_training_iteration` on each
registered callback. -/
def trainingIteration (s : TrainRunState) : TrainRunState :=
  { discUpdates := s.discUpdates + 1
    gen := CGeneratorTrainingCallback_end_of_training_iteration s.gen
    img := CGenerateDataCallback_end_of_training_iteration s.img }

/-- Batches per epoch of `DataLoader(..., batch_size=B, shuffle=True)` with
the default `drop_last=False` (src lines 48-50): `ceil(D / B)`. -/
def batchesPerEpoch (D B : ℕ) : ℕ := (D + B - 1) / B

/-- A full `trainer.fit()` run (src line 279) over `E` epochs
(`set_max_num_epochs`, src line 259) of `ceil(D/B)` batches each, from
freshly constructed callbacks (`count = 0`, `image_count = 0`). -/
def trainerFit (E D B gf imf : ℕ) : TrainRunState :=
  trainingIteration^[E * batchesPerEpoch D B]
    { discUpdates := 0
      gen := { count := 0, frequency := gf, updates := 0 }
      img := { count := 0, image_count := 0, frequency := imf, files := [] } }

/-! ## Helper lemmas: counter arithmetic and the scheduler closed form -/

lemma counter_fire (f n : ℕ) (h : n % (f + 1) = f) :
    (n + 1) % (f + 1) = 0 ∧ (n + 1) / (f + 1) = n / (f + 1) + 1 := by
  have hn : n = (f + 1) * (n / (f + 1)) + f := by
    conv_lhs => rw [← Nat.div_add_mod n (f + 1), h]
  have h1 : n + 1 = (f + 1) * (n / (f + 1) + 1) := by rw [Nat.mul_add, Nat.mul_one]; omega
  constructor
  · rw [h1]; exact Nat.mul_mod_right (f + 1) (n / (f + 1) + 1)
  · conv_lhs => rw [h1]
    exact Nat.mul_div_cancel_left (n / (f + 1) + 1) (Nat.succ_pos f)

lemma counter_nofire (f n : ℕ) (h : n % (f + 1) ≠ f) :
    (n + 1) % (f + 1) = n % (f + 1) + 1 ∧ (n + 1) / (f + 1) = n / (f + 1) := by
  have hub : n % (f + 1) < f + 1 := Nat.mod_lt n (Nat.succ_pos f)
  have hlt : n % (f + 1) < f := by omega
  have hn : n = (f + 1) * (n / (f + 1)) + n % (f + 1) := (Nat.div_add_mod n (f + 1)).symm
  have h1 : n + 1 = (n % (f + 1) + 1) + (f + 1) * (n / (f + 1)) := by omega
  constructor
  · conv_lhs => rw [h1]
    rw [Nat.add_mul_mod_self_left]
    exact Nat.mod_eq_of_lt (by omega)
  · conv_lhs => rw [h1]
    rw [Nat.add_mul_div_left _ _ (Nat.succ_pos f)]
    rw [Nat.div_eq_of_lt (by omega)]
    omega

lemma genCb_step_closed (gf k : ℕ) :
    CGeneratorTrainingCallback_end_of_training_iteration
        ⟨k % (gf + 1), gf, k / (gf + 1)⟩ =
      ⟨(k + 1) % (gf + 1), gf, (k + 1) / (gf + 1)⟩ := by
  unfold CGeneratorTrainingCallback_end_of_training_iteration
  dsimp only
  have hub : k % (gf + 1) < gf + 1 := Nat.mod_lt k (Nat.succ_pos gf)
  by_cases hc : k % (gf + 1) = gf
  · obtain ⟨hm, hd⟩ := counter_fire gf k hc
    rw [if_pos (by omega)]
    simp [hm, hd]
  · obtain ⟨hm, hd⟩ := counter_nofire gf k hc
    rw [if_neg (by omega)]
    simp [hm, hd]

lemma imgCb_step_closed (imf k : ℕ) :
    CGenerateDataCallback_end_of_training_iteration
        ⟨k % (imf + 1), k / (imf + 1), imf, (List.range (k / (imf + 1))).map imageFileName⟩ =
      ⟨(k + 1) % (imf + 1), (k + 1) / (imf + 1), imf,
       (List.range ((k + 1) / (imf + 1))).map imageFileName⟩ := by
  unfold CGenerateDataCallback_end_of_training_iteration CGenerateDataCallback_save_images
  dsimp only
  have hub : k % (imf + 1) < imf + 1 := Nat.mod_lt k (Nat.succ_pos imf)
  by_cases hc : k % (imf + 1) = imf
  · obtain ⟨hm, hd⟩ := counter_fire imf k hc
    rw [if_pos (by omega)]
    simp only [hm, hd, List.range_succ, List.map_append, List.map_cons, List.map_nil]
  · obtain ⟨hm, hd⟩ := counter_nofire imf k hc
    rw [if_neg (by omega)]
    simp [hm, hd]

lemma trainingIteration_closed (gf imf n : ℕ) :
    trainingIteration^[n]
        ⟨0, ⟨0, gf, 0⟩, ⟨0, 0, imf, []⟩⟩ =
      ⟨n, ⟨n % (gf + 1), gf, n / (gf + 1)⟩,
       ⟨n % (imf + 1), n / (imf + 1), imf,
        (List.range (n / (imf + 1))).map imageFileName⟩⟩ := by
  induction n with
  | zero => simp
  | succ k ih =>
      rw [Function.iterate_succ_apply', ih]
      unfold trainingIteration
      dsimp only
      rw [genCb_step_closed, imgCb_step_closed]

/-! ## Helper lemmas: sigmoid bounds and dataset access -/

lemma sigmoid_nonneg (v : ℝ) : 0 ≤ sigmoid v := by
  unfold sigmoid
  positivity

lemma sigmoid_le_one (v : ℝ) : sigmoid v ≤ 1 := by
  unfold sigmoid
  rw [div_le_one (by positivity)]
  linarith [Real.exp_pos (-v)]

lemma DNIMWrapper_len_eq (d : DNIMData) : DNIMWrapper_len d = d.pairs.length := by
  unfold DNIMWrapper_len DNIMWrapper_days
  simp

lemma DNIMWrapper_getitem_snd (d : DNIMData) (i : ℕ) :
    (DNIMWrapper_getitem d i).map (fun t => t.2.1) = (DNIMWrapper_nights d)[i]? := by
  unfold DNIMWrapper_getitem DNIMWrapper_days DNIMWrapper_nights
  cases hp : d.pairs[i]? <;> simp [List.getElem?_map, hp]

lemma DNIMWrapper_getitem_of_lt (d : DNIMData) (i : ℕ) (h : i < d.pairs.length) :
    DNIMWrapper_getitem d i = some (d.pairs[i].1, d.pairs[i].2, d.pairs[i].2) := by
  unfold DNIMWrapper_getitem DNIMWrapper_days DNIMWrapper_nights
  simp [List.getElem?_map, List.getElem?_eq_getElem h]

lemma train_generator_index_lt (d : DNIMData) (r : ℕ) (h : 0 < DNIMWrapper_len d) :
    train_generator_index d r < DNIMWrapper_len d := by
  unfold train_generator_index np_random_randint
  simpa using Nat.mod_lt r h

/-! ## Claims -/

/-- C1 (corrected): across `E` epochs over a dataset of size `D` with batch
size `B`, the discriminator is updated exactly `E * ceil(D/B)` times, while
the generator is updated `floor(E * ceil(D/B) / (generator_frequency + 1))`
times and images are written `floor(E * ceil(D/B) / (image_frequency + 1))`
times: each callback fires only when its counter strictly exceeds its
frequency, so the period is `frequency + 1`, not `frequency`. -/
theorem c1_scheduler_counts (E D B gf imf : ℕ) (hB : 0 < B) :
    (trainerFit E D B gf imf).discUpdates = E * ((D + B - 1) / B)
    ∧ (trainerFit E D B gf imf).gen.updates = E * ((D + B - 1) / B) / (gf + 1)
    ∧ (trainerFit E D B gf imf).img.image_count = E * ((D + B - 1) / B) / (imf + 1) := by
  unfold trainerFit batchesPerEpoch
  rw [trainingIteration_closed]
  exact ⟨rfl, rfl, rfl⟩

/-- C1 witness: the scheduler-count theorem instantiated at `E = 2`, `D = 4`,
`B = 2`, `generator_frequency = image_frequency = 1`. -/
theorem c1_scheduler_counts_witness :
    0 < 2
    ∧ ((trainerFit 2 4 2 1 1).discUpdates = 2 * ((4 + 2 - 1) / 2)
       ∧ (trainerFit 2 4 2 1 1).gen.updates = 2 * ((4 + 2 - 1) / 2) / (1 + 1)
       ∧ (trainerFit 2 4 2 1 1).img.image_count = 2 * ((4 + 2 - 1) / 2) / (1 + 1)) :=
  ⟨by decide, c1_scheduler_counts 2 4 2 1 1 (by decide)⟩

/-- C1 counterexample: with `E = D = B = 1` and both frequencies 1 the claim
as stated predicts `floor(1/1) = 1` generator update and 1 image, but the
run performs 0 of each. -/
theorem c1_counterexample :
    (trainerFit 1 1 1 1 1).gen.updates ≠ 1 * ((1 + 1 - 1) / 1) / 1
    ∧ (trainerFit 1 1 1 1 1).img.image_count ≠ 1 * ((1 + 1 - 1) / 1) / 1 := by
  decide

/-- C2 (corrected): with dataset size 4, batch size 2, 2 epochs and both
frequencies 1, the run performs exactly 4 discriminator updates but only
2 generator updates, and writes exactly 2 image files, named with
zero-padded sequential indices starting at 0. -/
theorem c2_end_to_end :
    (trainerFit 2 4 2 1 1).discUpdates = 4
    ∧ (trainerFit 2 4 2 1 1).gen.updates = 2
    ∧ (trainerFit 2 4 2 1 1).img.files = ["00000000.png", "00000001.png"] := by
  decide

/-- C2 counterexample: the claim's 4 generator updates and 4 image files do
not happen — the run performs 2 of each. -/
theorem c2_counterexample :
    (trainerFit 2 4 2 1 1).gen.updates ≠ 4
    ∧ (trainerFit 2 4 2 1 1).img.image_count ≠ 4 := by
  decide

/-- C3 (corrected): the condition passed along with the interpolated image in
the gradient-penalty score call is the one cached by the most recent
`generate`/`score_fake` call — `score_real` never writes the condition
cache — and only the image argument is the interpolation
`eps * xreal + (1 - eps) * xfake`; the condition is passed through unmixed.
Here `generate y1` is followed by `y_real x y2`, and the penalty still
scores against `y1`. -/
theorem c3_penalty_condition {β : Type} (m : CGANModel ℚ β) (y1 x y2 eps xr xf : ℚ) :
    gradientPenaltyScoreCall (((m.generate y1).2.y_real x y2).2) eps xr xf =
      (eps * xr + (1 - eps) * xf,
       some (m.discriminator (eps * xr + (1 - eps) * xf) y1)) := rfl

/-- C3 counterexample: with a discriminator that returns its condition
argument, after `generate 0` and then `score_real 7 1` the gradient-penalty
score call evaluates under condition 0 (the `generate` argument), not 1
(the argument of the more recent `score_real`), refuting the claim's
"whichever happened last". -/
theorem c3_counterexample :
    (gradientPenaltyScoreCall
        (((CGANModel.generate
            { generator := fun a => a
              discriminator := fun _ yc => yc
              format_images := fun a => a
              hooks := { xfake := none, y := none, generated_images := none,
                         xreal := none, real_images := none } }
            0).2.y_real 7 1).2)
        (1 / 2) 4 6).2 = some 0
    ∧ (some (0 : ℚ) ≠ some (1 : ℚ)) := by
  constructor
  · rfl
  · decide

/-- C4 (corrected): every condition the program consumes is the *nighttime*
image (column 1 of the dataset pairs), not the daytime image: the `y`
argument `CGANModel.forward` receives for sample `i` (second of the two
inputs bound by the trainer), the fixed first-element condition captured by
`CGenerateDataCallback.__init__`, and the condition drawn by
`CGeneratorTrainingCallback.train_generator` are all night images. -/
theorem c4_conditions_are_night (d : DNIMData) (i r : ℕ) :
    forwardConditionOfSample d i = (DNIMWrapper_nights d)[i]?
    ∧ CGenerateDataCallback_y d = (DNIMWrapper_nights d)[0]?
    ∧ train_generator_condition d r =
        (DNIMWrapper_nights d)[train_generator_index d r]? := by
  refine ⟨?_, ?_, ?_⟩
  · exact DNIMWrapper_getitem_snd d i
  · exact DNIMWrapper_getitem_snd d 0
  · exact DNIMWrapper_getitem_snd d (train_generator_index d r)

/-- C4 counterexample: on a dataset whose only pair has day image 10 and
night image 20, all three condition sites read 20 (the night image), which
differs from the day image 10 — so the conditions are not daytime images. -/
theorem c4_counterexample :
    forwardConditionOfSample ⟨[((10 : ℚ), (20 : ℚ))]⟩ 0 = some 20
    ∧ CGenerateDataCallback_y ⟨[((10 : ℚ), (20 : ℚ))]⟩ = some 20
    ∧ train_generator_condition ⟨[((10 : ℚ), (20 : ℚ))]⟩ 0 = some 20
    ∧ (DNIMWrapper_days ⟨[((10 : ℚ), (20 : ℚ))]⟩)[0]? = some 10
    ∧ (20 : ℚ) ≠ 10 := by
  refine ⟨rfl, rfl, rfl, rfl, by decide⟩

/-- C5 (confirmed): on the data model's 3 x 32 x 32 condition images the
generator preserves spatial dimensions and channel count for any batch size
and either instance-norm setting, and — for arbitrary weights, dropout
masks and inputs — every output element lies in [0, 1] thanks to the final
sigmoid. -/
theorem c5_generator_shape_and_range :
    (∀ (inorm : Bool) (n : ℕ),
        CGeneratorNetwork_shape inorm [n, 3, 32, 32] = Except.ok [n, 3, 32, 32])
    ∧ (∀ (inorm : Bool) (P : CGeneratorParams) (M : CGeneratorMasks)
        (y : Tensor3 3 32 32) (c : Fin 3) (i j : Fin 32),
        0 ≤ CGeneratorNetwork_forward inorm P M y c i j
        ∧ CGeneratorNetwork_forward inorm P M y c i j ≤ 1) := by
  constructor
  · intro inorm n
    cases inorm <;> rfl
  · intro inorm P M y c i j
    constructor
    · simp only [CGeneratorNetwork_forward, tmap]
      exact sigmoid_nonneg _
    · simp only [CGeneratorNetwork_forward, tmap]
      exact sigmoid_le_one _

/-- C6 (corrected): with instance normalization disabled the discriminator
returns one scalar per batch element (shape `[n]`) on `[n,3,32,32]` inputs;
with it enabled the forward pass fails, because `InstanceNorm1d(1024)`
receives the 2-D `[n, 1024]` output of the first `Linear` layer and rejects
it. -/
theorem c6_discriminator_shape (n : ℕ) :
    CDiscriminatorNetwork_forwardShape false [n, 3, 32, 32] [n, 3, 32, 32] = Except.ok [n]
    ∧ CDiscriminatorNetwork_forwardShape true [n, 3, 32, 32] [n, 3, 32, 32] =
        Except.error "InstanceNorm1d: expected 3D input" := by
  have hcat : catDim1Shape [n, 3, 32, 32] [n, 3, 32, 32] = Except.ok [n, 6, 32, 32] := by
    simp [catDim1Shape]
  constructor
  · unfold CDiscriminatorNetwork_forwardShape
    rw [hcat]
    show Except.ok [n * (128 * (8 * (8 * 1))) / (128 * 8 * 8) * (1 * 1)] = Except.ok [n]
    have h : n * (128 * (8 * (8 * 1))) / (128 * 8 * 8) * (1 * 1) = n := by omega
    rw [h]
  · unfold CDiscriminatorNetwork_forwardShape
    rw [hcat]
    rfl

/-- C6 counterexample: already at batch size 1, the discriminator with the
instance-norm toggle enabled does not produce a scalar per batch element —
its forward pass errors at `InstanceNorm1d`. -/
theorem c6_counterexample :
    CDiscriminatorNetwork_forwardShape true [1, 3, 32, 32] [1, 3, 32, 32] ≠
      Except.ok [1] := by
  intro h
  rw [show CDiscriminatorNetwork_forwardShape true [1, 3, 32, 32] [1, 3, 32, 32] =
        Except.error "InstanceNorm1d: expected 3D input" from by rfl] at h
  exact Except.noConfusion h

/-- C7 (confirmed): the trainer's optimizer is built over
`model.discriminator.parameters()` only, so its step leaves every generator
parameter unchanged; the generator-training callback's Adam is built over
`model.generator.parameters()` only, so `train_generator` leaves every
discriminator parameter unchanged. -/
theorem c7_optimizer_frame (d : DNIMData) (grad : ℚ → List ℚ → List ℚ)
    (lr1 lr2 : ℚ) (g1 : List ℚ) (r : ℕ) (p : CGANParamsQ)
    (h : 0 < DNIMWrapper_len d) :
    (Trainer_discriminator_step lr1 g1 p).generator = p.generator
    ∧ (CGeneratorTrainingCallback_train_generator d grad lr2 r p).map
        CGANParamsQ.discriminator = some p.discriminator := by
  constructor
  · rfl
  · have hidx := train_generator_index_lt d r h
    rw [DNIMWrapper_len_eq] at hidx
    unfold CGeneratorTrainingCallback_train_generator
    rw [DNIMWrapper_getitem_of_lt d _ hidx]
    rfl

/-- C7 witness: the frame theorem instantiated on a one-pair dataset with
concrete optimizer inputs. -/
theorem c7_optimizer_frame_witness :
    0 < DNIMWrapper_len ⟨[((10 : ℚ), (20 : ℚ))]⟩
    ∧ ((Trainer_discriminator_step 1 [2] ⟨[(3 : ℚ)], [(4 : ℚ)]⟩).generator = [(3 : ℚ)]
       ∧ (CGeneratorTrainingCallback_train_generator ⟨[((10 : ℚ), (20 : ℚ))]⟩
            (fun _ g => g) 1 0 ⟨[(3 : ℚ)], [(4 : ℚ)]⟩).map CGANParamsQ.discriminator =
          some [(4 : ℚ)]) :=
  ⟨by decide,
   c7_optimizer_frame ⟨[((10 : ℚ), (20 : ℚ))]⟩ (fun _ g => g) 1 1 [2] 0
     ⟨[(3 : ℚ)], [(4 : ℚ)]⟩ (by decide)⟩

/-- C8 (confirmed): each `train_generator` call draws ONE index from the
whole dataset — the modelled `np.random.randint(0, len)` lands in
`[0, len)` and, across one full period of seeds, hits every index exactly
once (the uniform draw) — uses that single example's condition, and updates
only generator parameters, independently of the discriminator's current
batch (the callback receives no batch: `end_of_training_iteration(self, **_)`
discards the trainer's keyword arguments). -/
theorem c8_generator_sampling (d : DNIMData) (grad : ℚ → List ℚ → List ℚ)
    (lr : ℚ) (r : ℕ) (p : CGANParamsQ) (h : 0 < DNIMWrapper_len d) :
    train_generator_index d r < DNIMWrapper_len d
    ∧ (∀ j, j < DNIMWrapper_len d →
        ((Finset.range (DNIMWrapper_len d)).filter
          (fun s => train_generator_index d s = j)).card = 1)
    ∧ train_generator_condition d r =
        (DNIMWrapper_nights d)[train_generator_index d r]?
    ∧ (CGeneratorTrainingCallback_train_generator d grad lr r p).map
        CGANParamsQ.discriminator = some p.discriminator := by
  refine ⟨train_generator_index_lt d r h, ?_, ?_, ?_⟩
  · intro j hj
    have hcongr : ∀ s ∈ Finset.range (DNIMWrapper_len d),
        (train_generator_index d s = j) ↔ (s = j) := by
      intro s hs
      unfold train_generator_index np_random_randint
      simp [Nat.mod_eq_of_lt (Finset.mem_range.mp hs)]
    rw [Finset.filter_congr hcongr, Finset.filter_eq']
    rw [if_pos (Finset.mem_range.mpr hj)]
    exact Finset.card_singleton j
  · exact DNIMWrapper_getitem_snd d (train_generator_index d r)
  · have hidx := train_generator_index_lt d r h
    rw [DNIMWrapper_len_eq] at hidx
    unfold CGeneratorTrainingCallback_train_generator
    rw [DNIMWrapper_getitem_of_lt d _ hidx]
    rfl

/-- C8 witness: the sampling theorem instantiated on a one-pair dataset. -/
theorem c8_generator_sampling_witness :
    0 < DNIMWrapper_len ⟨[((10 : ℚ), (20 : ℚ))]⟩
    ∧ (train_generator_index ⟨[((10 : ℚ), (20 : ℚ))]⟩ 0 <
          DNIMWrapper_len ⟨[((10 : ℚ), (20 : ℚ))]⟩
       ∧ (∀ j, j < DNIMWrapper_len ⟨[((10 : ℚ), (20 : ℚ))]⟩ →
            ((Finset.range (DNIMWrapper_len ⟨[((10 : ℚ), (20 : ℚ))]⟩)).filter
              (fun s => train_generator_index ⟨[((10 : ℚ), (20 : ℚ))]⟩ s = j)).card = 1)
       ∧ train_generator_condition ⟨[((10 : ℚ), (20 : ℚ))]⟩ 0 =
          (DNIMWrapper_nights ⟨[((10 : ℚ), (20 : ℚ))]⟩)[train_generator_index
            ⟨[((10 : ℚ), (20 : ℚ))]⟩ 0]?
       ∧ (CGeneratorTrainingCallback_train_generator ⟨[((10 : ℚ), (20 : ℚ))]⟩
            (fun _ g => g) 1 0 ⟨[], [(4 : ℚ)]⟩).map CGANParamsQ.discriminator =
          some [(4 : ℚ)]) :=
  ⟨by decide,
   c8_generator_sampling ⟨[((10 : ℚ), (20 : ℚ))]⟩ (fun _ g => g) 1 0 ⟨[], [(4 : ℚ)]⟩
     (by decide)⟩

/-- C9 (code bug): the claim requires all randomness to be controlled by a
fixed seed, but the program never seeds numpy or torch and its command-line
surface recognizes no seed option at all, so no such seed exists. -/
theorem c9_no_seed_option : "--seed" ∉ main_argument_names := by decide

/-- C10 (confirmed): the condition cache `_state_hooks['y']` is written by
`generate` (hence by `score_fake`) and never by `score_real`; consequently
after `forward(xreal, y)` — `y_real` first, `y_fake` second — the cached
condition is exactly the `y` argument of that call. -/
theorem c10_condition_cache {α β : Type} (m : CGANModel α β) (x y yg : α) :
    ((m.y_real x y).2.hooks.y = m.hooks.y)
    ∧ ((m.generate yg).2.hooks.y = some yg)
    ∧ ((m.y_fake yg).2.hooks.y = some yg)
    ∧ ((m.forward x y).2.hooks.y = some y) :=
  ⟨rfl, rfl, rfl, rfl⟩
